import Mathlib

/-!
Verification of the native-side save bridge (`src-tauri/src/lib.rs`).

The Rust command `save_file` orchestrates three external services:
a Dialog Service (native "Save As" dialog), a Filesystem Writer
(`std::fs::write`) and an Opener Service (`tauri_plugin_opener`).
We embed the command shallowly: the three services are oracles packed
in an `Env` record, paths and byte buffers are `List Nat` (byte lists),
the filesystem is an association list from paths to contents, and every
invocation of the writer or the opener is recorded in an event trace.
The conversion `path_buf.to_string_lossy()` performed by the Rust code
before calling the opener is embedded as a faithful UTF-8 lossy decoder
(`utf8Lossy`) over the path's bytes.
-/

namespace Minerva

/-- Byte sequences: file contents and filesystem paths. -/
abbrev Bytes := List Nat

/-- The replacement character U+FFFD, as its UTF-8 bytes.  Rust's
`to_string_lossy` substitutes this for every maximal invalid subpart. -/
def replChar : Bytes := [0xEF, 0xBF, 0xBD]

/-- A UTF-8 continuation byte (`0x80 ..= 0xBF`). -/
def isCont (b : Nat) : Bool := 0x80 ≤ b && b ≤ 0xBF

/-- Admissible first continuation byte of a three-byte sequence,
following Rust's `core::str::validations` (rules out overlong
encodings after `0xE0` and surrogates after `0xED`). -/
def cont1ok3 (b b1 : Nat) : Bool :=
  (b = 0xE0 && (0xA0 ≤ b1 && b1 ≤ 0xBF)) ||
  (0xE1 ≤ b && b ≤ 0xEC && isCont b1) ||
  (b = 0xED && (0x80 ≤ b1 && b1 ≤ 0x9F)) ||
  (0xEE ≤ b && b ≤ 0xEF && isCont b1)

/-- Admissible first continuation byte of a four-byte sequence
(rules out overlong encodings after `0xF0` and values above
U+10FFFF after `0xF4`). -/
def cont1ok4 (b b1 : Nat) : Bool :=
  (b = 0xF0 && (0x90 ≤ b1 && b1 ≤ 0xBF)) ||
  (0xF1 ≤ b && b ≤ 0xF3 && isCont b1) ||
  (b = 0xF4 && (0x80 ≤ b1 && b1 ≤ 0x8F))

/-- Rust's `String::from_utf8_lossy` over raw bytes: valid UTF-8
sequences are kept verbatim, each maximal invalid subpart is replaced
by U+FFFD.  This is what `path_buf.to_string_lossy().to_string()`
computes on the path handed to the opener plugin. -/
def utf8Lossy : Bytes → Bytes
  | [] => []
  | b :: rest =>
    if b ≤ 0x7F then b :: utf8Lossy rest
    else if 0xC2 ≤ b && b ≤ 0xDF then
      match rest with
      | [] => replChar
      | b1 :: r1 =>
        if isCont b1 then b :: b1 :: utf8Lossy r1
        else replChar ++ utf8Lossy (b1 :: r1)
    else if 0xE0 ≤ b && b ≤ 0xEF then
      match rest with
      | [] => replChar
      | b1 :: r1 =>
        if cont1ok3 b b1 then
          match r1 with
          | [] => replChar
          | b2 :: r2 =>
            if isCont b2 then b :: b1 :: b2 :: utf8Lossy r2
            else replChar ++ utf8Lossy (b2 :: r2)
        else replChar ++ utf8Lossy (b1 :: r1)
    else if 0xF0 ≤ b && b ≤ 0xF4 then
      match rest with
      | [] => replChar
      | b1 :: r1 =>
        if cont1ok4 b b1 then
          match r1 with
          | [] => replChar
          | b2 :: r2 =>
            if isCont b2 then
              match r2 with
              | [] => replChar
              | b3 :: r3 =>
                if isCont b3 then b :: b1 :: b2 :: b3 :: utf8Lossy r3
                else replChar ++ utf8Lossy (b3 :: r3)
            else replChar ++ utf8Lossy (b2 :: r2)
        else replChar ++ utf8Lossy (b1 :: r1)
    else replChar ++ utf8Lossy rest

/-- Validity of a byte sequence as UTF-8, with the same sequence
structure as `utf8Lossy`. -/
def validUtf8 : Bytes → Bool
  | [] => true
  | b :: rest =>
    if b ≤ 0x7F then validUtf8 rest
    else if 0xC2 ≤ b && b ≤ 0xDF then
      match rest with
      | [] => false
      | b1 :: r1 => isCont b1 && validUtf8 r1
    else if 0xE0 ≤ b && b ≤ 0xEF then
      match rest with
      | [] => false
      | b1 :: r1 =>
        cont1ok3 b b1 &&
          match r1 with
          | [] => false
          | b2 :: r2 => isCont b2 && validUtf8 r2
    else if 0xF0 ≤ b && b ≤ 0xF4 then
      match rest with
      | [] => false
      | b1 :: r1 =>
        cont1ok4 b b1 &&
          match r1 with
          | [] => false
          | b2 :: r2 =>
            isCont b2 &&
              match r2 with
              | [] => false
              | b3 :: r3 => isCont b3 && validUtf8 r3
    else false

/-- The filesystem: newest write first; lookup takes the first hit,
so prepending models `fs::write`'s overwrite semantics. -/
abbrev Fs := List (Bytes × Bytes)

/-- Effect of a successful `fs::write(path, data)`. -/
def fsWrite (fs : Fs) (p d : Bytes) : Fs := (p, d) :: fs

/-- Contents currently stored at a path, if any. -/
def fsRead : Fs → Bytes → Option Bytes
  | [], _ => none
  | (q, d) :: rest, p => if q = p then some d else fsRead rest p

/-- Observable invocations of the two effectful services. -/
inductive Event where
  /-- The Filesystem Writer was invoked with this path and data. -/
  | write (path : Bytes) (data : Bytes) : Event
  /-- The Opener Service was invoked with this path string. -/
  | openReq (path : Bytes) : Event
deriving DecidableEq, Repr

/-- The three external services of one `save_file` call.  The dialog
result may depend on the title and suggested name shown to the user;
`intoPath` is `FilePath::into_path` (fallible conversion of the
dialog's answer to a filesystem path); `writeErr`/`openErr` give the
error message when the writer/opener fails, `none` on success. -/
structure Env where
  dialogResult : String → String → Option Bytes
  intoPath : Bytes → Except String Bytes
  writeErr : Bytes → Bytes → Option String
  openErr : Bytes → Option String

/-- Result of one `save_file` call: the returned
`Result<bool, String>`, the trace of service invocations, and the
filesystem after the call. -/
structure Outcome where
  result : Except String Bool
  events : List Event
  fs : Fs
deriving Repr

/-- Shallow embedding of the Rust command `save_file`
(`src-tauri/src/lib.rs`): show the save dialog; on cancellation
return `Ok(false)`; otherwise convert the chosen path with
`into_path` (`?` propagates its error), call `fs::write` (`?`
propagates its error), and if `open_file` is set call the opener on
`path_buf.to_string_lossy().to_string()` (`?` propagates its error);
finally return `Ok(true)`. -/
def save_file (env : Env) (fs : Fs) (title default_name : String)
    (content : Bytes) (open_file : Bool) : Outcome :=
  match env.dialogResult title default_name with
  | none => ⟨Except.ok false, [], fs⟩
  | some fp =>
    match env.intoPath fp with
    | Except.error e => ⟨Except.error e, [], fs⟩
    | Except.ok path_buf =>
      match env.writeErr path_buf content with
      | some e => ⟨Except.error e, [Event.write path_buf content], fs⟩
      | none =>
        let fs1 := fsWrite fs path_buf content
        if open_file then
          let path_str := utf8Lossy path_buf
          match env.openErr path_str with
          | some e =>
            ⟨Except.error e,
              [Event.write path_buf content, Event.openReq path_str], fs1⟩
          | none =>
            ⟨Except.ok true,
              [Event.write path_buf content, Event.openReq path_str], fs1⟩
        else ⟨Except.ok true, [Event.write path_buf content], fs1⟩

/-- Shallow embedding of the Rust command `greet`:
`format!("Hello, {}! You've been greeted from Rust!", name)`. -/
def greet (name : String) : String :=
  "Hello, " ++ name ++ "! You've been greeted from Rust!"

/-- Bytes of the path `/tmp/out.txt`. -/
def tmpOutPath : Bytes := [47, 116, 109, 112, 47, 111, 117, 116, 46, 116, 120, 116]

/-- Environment where every service succeeds and the dialog yields
`/tmp/out.txt`. -/
def envOk : Env :=
  { dialogResult := fun _ _ => some tmpOutPath
    intoPath := Except.ok
    writeErr := fun _ _ => none
    openErr := fun _ => none }

/-- Environment where the user cancels the dialog. -/
def envCancel : Env :=
  { dialogResult := fun _ _ => none
    intoPath := Except.ok
    writeErr := fun _ _ => none
    openErr := fun _ => none }

/-- Environment where the writer fails with "disk full". -/
def envWriteFail : Env :=
  { dialogResult := fun _ _ => some tmpOutPath
    intoPath := Except.ok
    writeErr := fun _ _ => some "disk full"
    openErr := fun _ => none }

/-- Environment where the opener fails with "no handler". -/
def envOpenFail : Env :=
  { dialogResult := fun _ _ => some tmpOutPath
    intoPath := Except.ok
    writeErr := fun _ _ => none
    openErr := fun _ => some "no handler" }

/-- Environment where the dialog's answer cannot be converted to a
filesystem path. -/
def envBadPath : Env :=
  { dialogResult := fun _ _ => some tmpOutPath
    intoPath := fun _ => Except.error "not a file path"
    writeErr := fun _ _ => none
    openErr := fun _ => none }

/-- Environment whose dialog yields the single byte `0xFF`, a path
that is not valid UTF-8; all services succeed. -/
def envNonUtf8 : Env :=
  { dialogResult := fun _ _ => some [0xFF]
    intoPath := Except.ok
    writeErr := fun _ _ => none
    openErr := fun _ => none }

/-! ## Characterization lemmas: one equation per control-flow path of `save_file`. -/

theorem save_file_eq_cancel (env : Env) (fs : Fs) (t n : String) (c : Bytes) (o : Bool)
    (h : env.dialogResult t n = none) :
    save_file env fs t n c o = ⟨Except.ok false, [], fs⟩ := by
  simp [save_file, h]

theorem save_file_eq_badpath (env : Env) (fs : Fs) (t n : String) (c : Bytes) (o : Bool)
    (fp : Bytes) (e : String)
    (h1 : env.dialogResult t n = some fp) (h2 : env.intoPath fp = Except.error e) :
    save_file env fs t n c o = ⟨Except.error e, [], fs⟩ := by
  simp [save_file, h1, h2]

theorem save_file_eq_writefail (env : Env) (fs : Fs) (t n : String) (c : Bytes) (o : Bool)
    (fp pb : Bytes) (e : String)
    (h1 : env.dialogResult t n = some fp) (h2 : env.intoPath fp = Except.ok pb)
    (h3 : env.writeErr pb c = some e) :
    save_file env fs t n c o = ⟨Except.error e, [Event.write pb c], fs⟩ := by
  simp [save_file, h1, h2, h3]

theorem save_file_eq_noopen (env : Env) (fs : Fs) (t n : String) (c : Bytes)
    (fp pb : Bytes)
    (h1 : env.dialogResult t n = some fp) (h2 : env.intoPath fp = Except.ok pb)
    (h3 : env.writeErr pb c = none) :
    save_file env fs t n c false =
      ⟨Except.ok true, [Event.write pb c], fsWrite fs pb c⟩ := by
  simp [save_file, h1, h2, h3]

theorem save_file_eq_openfail (env : Env) (fs : Fs) (t n : String) (c : Bytes)
    (fp pb : Bytes) (e : String)
    (h1 : env.dialogResult t n = some fp) (h2 : env.intoPath fp = Except.ok pb)
    (h3 : env.writeErr pb c = none) (h4 : env.openErr (utf8Lossy pb) = some e) :
    save_file env fs t n c true =
      ⟨Except.error e, [Event.write pb c, Event.openReq (utf8Lossy pb)],
        fsWrite fs pb c⟩ := by
  simp [save_file, h1, h2, h3, h4]

theorem save_file_eq_openok (env : Env) (fs : Fs) (t n : String) (c : Bytes)
    (fp pb : Bytes)
    (h1 : env.dialogResult t n = some fp) (h2 : env.intoPath fp = Except.ok pb)
    (h3 : env.writeErr pb c = none) (h4 : env.openErr (utf8Lossy pb) = none) :
    save_file env fs t n c true =
      ⟨Except.ok true, [Event.write pb c, Event.openReq (utf8Lossy pb)],
        fsWrite fs pb c⟩ := by
  simp [save_file, h1, h2, h3, h4]

theorem fsRead_fsWrite_self (fs : Fs) (p d : Bytes) :
    fsRead (fsWrite fs p d) p = some d := by
  simp [fsRead, fsWrite]

theorem utf8Lossy_of_valid (l : Bytes) :
    validUtf8 l = true → utf8Lossy l = l := by
  induction l using utf8Lossy.induct with
  | case1 => intro h; rfl
  | case2 b rest hb ih =>
    intro h
    rw [validUtf8.eq_def] at h
    simp [hb] at h
    rw [utf8Lossy.eq_def]
    simp [hb, ih h]
  | case3 b h1 h2 =>
    intro h
    rw [validUtf8.eq_def] at h
    simp [h1, h2] at h
  | case4 b h1 h2 b1 r1 hc ih =>
    intro h
    rw [validUtf8.eq_def] at h
    simp [h1, h2, hc] at h
    rw [utf8Lossy.eq_def]
    simp [h1, h2, hc, ih h]
  | case5 b h1 h2 b1 r1 hc ih =>
    intro h
    rw [validUtf8.eq_def] at h
    simp [h1, h2, hc] at h
  | case6 b h1 h2 h3 =>
    intro h
    rw [validUtf8.eq_def] at h
    simp [h1, h2, h3] at h
  | case7 b h1 h2 h3 b1 hc31 =>
    intro h
    rw [validUtf8.eq_def] at h
    simp [h1, h2, h3, hc31] at h
  | case8 b h1 h2 h3 b1 hc31 b2 r2 hc ih =>
    intro h
    rw [validUtf8.eq_def] at h
    simp [h1, h2, h3, hc31, hc] at h
    rw [utf8Lossy.eq_def]
    simp [h1, h2, h3, hc31, hc, ih h]
  | case9 b h1 h2 h3 b1 hc31 b2 r2 hc ih =>
    intro h
    rw [validUtf8.eq_def] at h
    simp [h1, h2, h3, hc31, hc] at h
  | case10 b h1 h2 h3 b1 r1 hc31 ih =>
    intro h
    rw [validUtf8.eq_def] at h
    simp [h1, h2, h3, hc31] at h
  | case11 b h1 h2 h3 h4 =>
    intro h
    rw [validUtf8.eq_def] at h
    simp [h1, h2, h3, h4] at h
  | case12 b h1 h2 h3 h4 b1 hc41 =>
    intro h
    rw [validUtf8.eq_def] at h
    simp [h1, h2, h3, h4, hc41] at h
  | case13 b h1 h2 h3 h4 b1 hc41 b2 hc2 =>
    intro h
    rw [validUtf8.eq_def] at h
    simp [h1, h2, h3, h4, hc41, hc2] at h
  | case14 b h1 h2 h3 h4 b1 hc41 b2 hc2 b3 r3 hc3 ih =>
    intro h
    rw [validUtf8.eq_def] at h
    simp [h1, h2, h3, h4, hc41, hc2, hc3] at h
    rw [utf8Lossy.eq_def]
    simp [h1, h2, h3, h4, hc41, hc2, hc3, ih h]
  | case15 b h1 h2 h3 h4 b1 hc41 b2 hc2 b3 r3 hc3 ih =>
    intro h
    rw [validUtf8.eq_def] at h
    simp [h1, h2, h3, h4, hc41, hc2, hc3] at h
  | case16 b h1 h2 h3 h4 b1 hc41 b2 r2 hc2 ih =>
    intro h
    rw [validUtf8.eq_def] at h
    simp [h1, h2, h3, h4, hc41, hc2] at h
  | case17 b h1 h2 h3 h4 b1 r1 hc41 ih =>
    intro h
    rw [validUtf8.eq_def] at h
    simp [h1, h2, h3, h4, hc41] at h
  | case18 b rest h1 h2 h3 h4 ih =>
    intro h
    rw [validUtf8.eq_def] at h
    simp [h1, h2, h3, h4] at h

/-! ## Claim theorems -/

/-- Claim C1: every filesystem write performed by a `save_file` execution
uses exactly the path obtained from the Dialog Service in that same
execution, after conversion by `into_path`; the operation never writes to
a path it did not obtain from the dialog in the current call. -/
theorem write_uses_dialog_path (env : Env) (fs : Fs) (t n : String)
    (c : Bytes) (o : Bool) (p d : Bytes)
    (h : Event.write p d ∈ (save_file env fs t n c o).events) :
    ∃ fp, env.dialogResult t n = some fp ∧ env.intoPath fp = Except.ok p := by
  cases hd : env.dialogResult t n with
  | none => rw [save_file_eq_cancel env fs t n c o hd] at h; simp at h
  | some fp =>
    cases hip : env.intoPath fp with
    | error e =>
      rw [save_file_eq_badpath env fs t n c o fp e hd hip] at h
      simp at h
    | ok pb =>
      refine ⟨fp, rfl, ?_⟩
      cases hw : env.writeErr pb c with
      | some e =>
        rw [save_file_eq_writefail env fs t n c o fp pb e hd hip hw] at h
        simp at h
        rw [h.1]
        exact hip
      | none =>
        cases o with
        | false =>
          rw [save_file_eq_noopen env fs t n c fp pb hd hip hw] at h
          simp at h
          rw [h.1]
          exact hip
        | true =>
          cases ho : env.openErr (utf8Lossy pb) with
          | some e =>
            rw [save_file_eq_openfail env fs t n c fp pb e hd hip hw ho] at h
            simp at h
            rw [h.1]
            exact hip
          | none =>
            rw [save_file_eq_openok env fs t n c fp pb hd hip hw ho] at h
            simp at h
            rw [h.1]
            exact hip

/-- Witness for C1 at `envOk`. -/
theorem write_uses_dialog_path_witness :
    ∃ fp, envOk.dialogResult "Save" "out.txt" = some fp ∧
      envOk.intoPath fp = Except.ok tmpOutPath :=
  write_uses_dialog_path envOk [] "Save" "out.txt" [72, 105] false
    tmpOutPath [72, 105] (by decide)

/-- Claim C2: if the Dialog Service returns no path (the user cancelled),
`save_file` returns `Ok(false)` and no external service is invoked — in
particular the Filesystem Writer is never invoked. -/
theorem cancelled_returns_false (env : Env) (fs : Fs) (t n : String)
    (c : Bytes) (o : Bool) (h : env.dialogResult t n = none) :
    (save_file env fs t n c o).result = Except.ok false ∧
    (save_file env fs t n c o).events = [] := by
  rw [save_file_eq_cancel env fs t n c o h]
  exact ⟨rfl, rfl⟩

/-- Witness for C2 at `envCancel`. -/
theorem cancelled_returns_false_witness :
    (save_file envCancel [] "t" "n" [1] false).result = Except.ok false ∧
    (save_file envCancel [] "t" "n" [1] false).events = [] :=
  cancelled_returns_false envCancel [] "t" "n" [1] false rfl

/-- Claim C3: with `openAfterSave = false`, if the dialog returns a path
and the Filesystem Writer succeeds, `save_file` returns `Ok(true)` and
the Opener Service is never invoked. -/
theorem flag_false_never_opens (env : Env) (fs : Fs) (t n : String)
    (c : Bytes) (fp pb : Bytes)
    (h1 : env.dialogResult t n = some fp) (h2 : env.intoPath fp = Except.ok pb)
    (h3 : env.writeErr pb c = none) :
    (save_file env fs t n c false).result = Except.ok true ∧
    ∀ p, Event.openReq p ∉ (save_file env fs t n c false).events := by
  rw [save_file_eq_noopen env fs t n c fp pb h1 h2 h3]
  refine ⟨rfl, fun p hp => ?_⟩
  simp at hp

/-- Witness for C3 at `envOk`. -/
theorem flag_false_never_opens_witness :
    (save_file envOk [] "Save" "out.txt" [72, 105] false).result = Except.ok true ∧
    ∀ p, Event.openReq p ∉ (save_file envOk [] "Save" "out.txt" [72, 105] false).events :=
  flag_false_never_opens envOk [] "Save" "out.txt" [72, 105]
    tmpOutPath tmpOutPath rfl rfl rfl

/-- Claim C4: if the Filesystem Writer fails, `save_file` returns the
writer's error message and the Opener Service is never invoked;
moreover, in every execution the first recorded service invocation, if
any, is the write — so the write step always precedes any open attempt. -/
theorem write_fail_never_opens (env : Env) (fs : Fs) (t n : String)
    (c : Bytes) (o : Bool) (fp pb : Bytes) (e : String)
    (h1 : env.dialogResult t n = some fp) (h2 : env.intoPath fp = Except.ok pb)
    (h3 : env.writeErr pb c = some e) :
    (save_file env fs t n c o).result = Except.error e ∧
    (∀ p, Event.openReq p ∉ (save_file env fs t n c o).events) ∧
    (∀ (env2 : Env) (fs2 : Fs) (t2 n2 : String) (c2 : Bytes) (o2 : Bool),
      (save_file env2 fs2 t2 n2 c2 o2).events = [] ∨
      ∃ p2 rest, (save_file env2 fs2 t2 n2 c2 o2).events =
        Event.write p2 c2 :: rest) := by
  rw [save_file_eq_writefail env fs t n c o fp pb e h1 h2 h3]
  refine ⟨rfl, fun p hp => by simp at hp, ?_⟩
  intro env2 fs2 t2 n2 c2 o2
  cases hd : env2.dialogResult t2 n2 with
  | none => left; rw [save_file_eq_cancel env2 fs2 t2 n2 c2 o2 hd]
  | some fp2 =>
    cases hip : env2.intoPath fp2 with
    | error e2 => left; rw [save_file_eq_badpath env2 fs2 t2 n2 c2 o2 fp2 e2 hd hip]
    | ok pb2 =>
      cases hw : env2.writeErr pb2 c2 with
      | some e2 =>
        right
        exact ⟨pb2, [], by rw [save_file_eq_writefail env2 fs2 t2 n2 c2 o2 fp2 pb2 e2 hd hip hw]⟩
      | none =>
        cases o2 with
        | false =>
          right
          exact ⟨pb2, [], by rw [save_file_eq_noopen env2 fs2 t2 n2 c2 fp2 pb2 hd hip hw]⟩
        | true =>
          cases ho : env2.openErr (utf8Lossy pb2) with
          | some e2 =>
            right
            exact ⟨pb2, [Event.openReq (utf8Lossy pb2)],
              by rw [save_file_eq_openfail env2 fs2 t2 n2 c2 fp2 pb2 e2 hd hip hw ho]⟩
          | none =>
            right
            exact ⟨pb2, [Event.openReq (utf8Lossy pb2)],
              by rw [save_file_eq_openok env2 fs2 t2 n2 c2 fp2 pb2 hd hip hw ho]⟩

/-- Witness for C4 at `envWriteFail`. -/
theorem write_fail_never_opens_witness :
    (save_file envWriteFail [] "t" "n" [1] true).result = Except.error "disk full" ∧
    (∀ p, Event.openReq p ∉ (save_file envWriteFail [] "t" "n" [1] true).events) ∧
    (∀ (env2 : Env) (fs2 : Fs) (t2 n2 : String) (c2 : Bytes) (o2 : Bool),
      (save_file env2 fs2 t2 n2 c2 o2).events = [] ∨
      ∃ p2 rest, (save_file env2 fs2 t2 n2 c2 o2).events =
        Event.write p2 c2 :: rest) :=
  write_fail_never_opens envWriteFail [] "t" "n" [1] true
    tmpOutPath tmpOutPath "disk full" rfl rfl rfl

/-- Claim C5: with `openAfterSave = true`, if the write succeeds but the
Opener Service fails, `save_file` returns an error whose message is the
opener's failure message, and the file at the resolved path still holds
the written bytes — the write is not rolled back. -/
theorem open_fail_write_persists (env : Env) (fs : Fs) (t n : String)
    (c : Bytes) (fp pb : Bytes) (e : String)
    (h1 : env.dialogResult t n = some fp) (h2 : env.intoPath fp = Except.ok pb)
    (h3 : env.writeErr pb c = none) (h4 : env.openErr (utf8Lossy pb) = some e) :
    (save_file env fs t n c true).result = Except.error e ∧
    fsRead (save_file env fs t n c true).fs pb = some c := by
  rw [save_file_eq_openfail env fs t n c fp pb e h1 h2 h3 h4]
  exact ⟨rfl, fsRead_fsWrite_self fs pb c⟩

/-- Witness for C5 at `envOpenFail`. -/
theorem open_fail_write_persists_witness :
    (save_file envOpenFail [] "t" "n" [1, 2] true).result =
      Except.error "no handler" ∧
    fsRead (save_file envOpenFail [] "t" "n" [1, 2] true).fs tmpOutPath =
      some [1, 2] :=
  open_fail_write_persists envOpenFail [] "t" "n" [1, 2]
    tmpOutPath tmpOutPath "no handler" rfl rfl rfl rfl

/-- Claim C6, counterexample: with the non-UTF-8 path `[0xFF]` the write
goes to `[0xFF]`, but the Opener Service is invoked with the replacement
character `[0xEF, 0xBF, 0xBD]` (the lossy string conversion), not with
the path that was written — refuting "the Opener Service is invoked with
exactly the `ResolvedPath` that was written ... for all paths including
non-UTF-8 ones". -/
theorem opener_lossy_counterexample :
    Event.write [0xFF] [72] ∈ (save_file envNonUtf8 [] "Save" "a" [72] true).events ∧
    Event.openReq [0xFF] ∉ (save_file envNonUtf8 [] "Save" "a" [72] true).events ∧
    Event.openReq [0xEF, 0xBF, 0xBD] ∈
      (save_file envNonUtf8 [] "Save" "a" [72] true).events := by
  decide

/-- Claim C6 (amended): with `openAfterSave = true` and a successful
write, the Opener Service is invoked with the UTF-8 lossy string
conversion of the written path; for paths that are valid UTF-8 this is
byte-for-byte the written path (the same filesystem location), but for
non-UTF-8 paths it may differ. -/
theorem opener_gets_lossy_path (env : Env) (fs : Fs) (t n : String)
    (c : Bytes) (fp pb : Bytes)
    (h1 : env.dialogResult t n = some fp) (h2 : env.intoPath fp = Except.ok pb)
    (h3 : env.writeErr pb c = none) :
    Event.write pb c ∈ (save_file env fs t n c true).events ∧
    Event.openReq (utf8Lossy pb) ∈ (save_file env fs t n c true).events ∧
    (validUtf8 pb = true → utf8Lossy pb = pb) := by
  have hmem : Event.write pb c ∈ (save_file env fs t n c true).events ∧
      Event.openReq (utf8Lossy pb) ∈ (save_file env fs t n c true).events := by
    cases ho : env.openErr (utf8Lossy pb) with
    | some e =>
      rw [save_file_eq_openfail env fs t n c fp pb e h1 h2 h3 ho]
      exact ⟨by simp, by simp⟩
    | none =>
      rw [save_file_eq_openok env fs t n c fp pb h1 h2 h3 ho]
      exact ⟨by simp, by simp⟩
  exact ⟨hmem.1, hmem.2, utf8Lossy_of_valid pb⟩

/-- Witness for the amended C6 at `envOk`. -/
theorem opener_gets_lossy_path_witness :
    Event.write tmpOutPath [72, 105] ∈
      (save_file envOk [] "Save" "out.txt" [72, 105] true).events ∧
    Event.openReq (utf8Lossy tmpOutPath) ∈
      (save_file envOk [] "Save" "out.txt" [72, 105] true).events ∧
    (validUtf8 tmpOutPath = true → utf8Lossy tmpOutPath = tmpOutPath) :=
  opener_gets_lossy_path envOk [] "Save" "out.txt" [72, 105]
    tmpOutPath tmpOutPath rfl rfl rfl

/-- Claim C7: if the path returned by the Dialog Service cannot be
converted to a filesystem path, `save_file` returns the conversion's
error message and neither the Filesystem Writer nor the Opener Service
is invoked. -/
theorem badpath_invokes_nothing (env : Env) (fs : Fs) (t n : String)
    (c : Bytes) (o : Bool) (fp : Bytes) (e : String)
    (h1 : env.dialogResult t n = some fp)
    (h2 : env.intoPath fp = Except.error e) :
    (save_file env fs t n c o).result = Except.error e ∧
    (save_file env fs t n c o).events = [] := by
  rw [save_file_eq_badpath env fs t n c o fp e h1 h2]
  exact ⟨rfl, rfl⟩

/-- Witness for C7 at `envBadPath`. -/
theorem badpath_invokes_nothing_witness :
    (save_file envBadPath [] "t" "n" [1] true).result =
      Except.error "not a file path" ∧
    (save_file envBadPath [] "t" "n" [1] true).events = [] :=
  badpath_invokes_nothing envBadPath [] "t" "n" [1] true
    tmpOutPath "not a file path" rfl rfl

/-- Claim C8: for the request `{title: "Save", defaultName: "out.txt",
content: [72, 105], openAfterSave: false}` with the dialog returning
`/tmp/out.txt`, the Filesystem Writer receives exactly the bytes
`[72, 105]` at `/tmp/out.txt` and `save_file` returns `Ok(true)`. -/
theorem concrete_save_scenario :
    (save_file envOk [] "Save" "out.txt" [72, 105] false).events =
      [Event.write tmpOutPath [72, 105]] ∧
    (save_file envOk [] "Save" "out.txt" [72, 105] false).result =
      Except.ok true :=
  ⟨rfl, rfl⟩

/-- Claim C9: running `save_file` twice with the same request against a
dialog returning the same path is idempotent on the file's content: both
runs produce the same service invocations (the written bytes are a
deterministic function of the request), and after the second run — which
overwrites the first — the file holds exactly the request's bytes, just
as after the first. -/
theorem save_file_idempotent (env : Env) (fs : Fs) (t n : String)
    (c : Bytes) (o : Bool) (fp pb : Bytes)
    (h1 : env.dialogResult t n = some fp) (h2 : env.intoPath fp = Except.ok pb)
    (h3 : env.writeErr pb c = none) :
    (save_file env (save_file env fs t n c o).fs t n c o).events =
      (save_file env fs t n c o).events ∧
    Event.write pb c ∈ (save_file env fs t n c o).events ∧
    fsRead (save_file env fs t n c o).fs pb = some c ∧
    fsRead (save_file env (save_file env fs t n c o).fs t n c o).fs pb =
      some c := by
  cases o with
  | false =>
    rw [save_file_eq_noopen env fs t n c fp pb h1 h2 h3]
    rw [save_file_eq_noopen env (fsWrite fs pb c) t n c fp pb h1 h2 h3]
    refine ⟨rfl, by simp, fsRead_fsWrite_self fs pb c,
      fsRead_fsWrite_self (fsWrite fs pb c) pb c⟩
  | true =>
    cases ho : env.openErr (utf8Lossy pb) with
    | some e =>
      rw [save_file_eq_openfail env fs t n c fp pb e h1 h2 h3 ho]
      rw [save_file_eq_openfail env (fsWrite fs pb c) t n c fp pb e h1 h2 h3 ho]
      refine ⟨rfl, by simp, fsRead_fsWrite_self fs pb c,
        fsRead_fsWrite_self (fsWrite fs pb c) pb c⟩
    | none =>
      rw [save_file_eq_openok env fs t n c fp pb h1 h2 h3 ho]
      rw [save_file_eq_openok env (fsWrite fs pb c) t n c fp pb h1 h2 h3 ho]
      refine ⟨rfl, by simp, fsRead_fsWrite_self fs pb c,
        fsRead_fsWrite_self (fsWrite fs pb c) pb c⟩

/-- Witness for C9 at `envOk`. -/
theorem save_file_idempotent_witness :
    (save_file envOk (save_file envOk [] "Save" "out.txt" [72, 105] false).fs
        "Save" "out.txt" [72, 105] false).events =
      (save_file envOk [] "Save" "out.txt" [72, 105] false).events ∧
    Event.write tmpOutPath [72, 105] ∈
      (save_file envOk [] "Save" "out.txt" [72, 105] false).events ∧
    fsRead (save_file envOk [] "Save" "out.txt" [72, 105] false).fs
      tmpOutPath = some [72, 105] ∧
    fsRead (save_file envOk (save_file envOk [] "Save" "out.txt" [72, 105] false).fs
        "Save" "out.txt" [72, 105] false).fs tmpOutPath = some [72, 105] :=
  save_file_idempotent envOk [] "Save" "out.txt" [72, 105] false
    tmpOutPath tmpOutPath rfl rfl rfl

/-- Claim C10: for every input string, `greet` returns exactly
`"Hello, " ++ name ++ "! You've been greeted from Rust!"`. -/
theorem greet_returns_greeting (name : String) :
    greet name = "Hello, " ++ name ++ "! You've been greeted from Rust!" :=
  rfl

end Minerva
